import Mathlib

/-!
Shallow embedding of the HAL device/backend resource manager (src/device.rs)
and the numeric loss layer (src/loss.rs).

The external compute runtime (ArrayFire) is modelled as pure state plus an
explicit trace of the runtime calls a function issues.  Fatal `panic!` /
failed `assert!` / `unwrap` paths are modelled as `Except.error` with the
panic message; `Result<_, HALError>` values are modelled as
`Except HALError _`.  Numeric array contents are modelled over `ℚ`
(the claims under study are exact algebraic identities and control-flow
properties, not floating-point rounding facts).
-/

namespace HAL

/-- Backend kinds reported by the external runtime (af::Backend). -/
inductive Backend
  | Default
  | CPU
  | CUDA
  | OpenCL
deriving DecidableEq, Repr

/-- Element numeric types of the runtime (af::Aftype); only the members the
source touches are needed. -/
inductive Aftype
  | F32
  | F64
  | S32
  | U8
deriving DecidableEq, Repr

/-- Device: one addressable compute unit, `(backend kind, numeric id)`.
Mirrors `pub struct Device` in src/device.rs; equality is structural. -/
structure Device where
  backend : Backend
  id : Int
deriving DecidableEq, Repr

/-- One observable call into the external runtime's global state: the two
context switches plus the array staging operations used by migration. -/
inductive RtCall
  | setBackend (b : Backend)
  | setDevice (i : Int)
  | getDims (elements : Nat)
  | hostRead (elements : Nat)
  | constructArr (elements : Nat) (dtype : Aftype)
deriving DecidableEq, Repr

/-- The free function `set_device` of src/device.rs: toggles backend and
device via the runtime's global switches (both fatal on failure; the model
records the two successful calls). -/
def set_device (device : Device) : List RtCall :=
  [RtCall.setBackend device.backend, RtCall.setDevice device.id]

/-- The environment a run of `new()` observes: which backends the runtime
reports available, and each backend's device count. -/
structure Env where
  backends : List Backend
  device_count : Backend → Nat

/-- `create_devices` of src/device.rs: activates `backend`, queries its
device count and returns one `Device` per index `0..count`, together with
the runtime call it issued. -/
def create_devices (env : Env) (backend : Backend) : List Device × List RtCall :=
  ((List.range (env.device_count backend)).map (fun i => ⟨backend, (i : Int)⟩),
   [RtCall.setBackend backend])

/-- The device-accumulation loop of `new()`: `devices.extend(create_devices(backend))`
over the available backends, in order. -/
def enumerate_devices (env : Env) : List Backend → List Device
  | [] => []
  | b :: rest => (create_devices env b).1 ++ enumerate_devices env rest

/-- The runtime calls the enumeration loop of `new()` issues, in order. -/
def enumerate_trace (env : Env) : List Backend → List RtCall
  | [] => []
  | b :: rest => (create_devices env b).2 ++ enumerate_trace env rest

/-- `DeviceManagerFactory` of src/device.rs: the immutable catalog of
enumerated devices plus the cached active device (the `Cell` is modelled by
explicit state passing). -/
structure DeviceManagerFactory where
  devices : List Device
  current : Device
deriving DecidableEq, Repr

/-- `DeviceManagerFactory::new`: enumerate all devices over the available
backends, assert the catalog is non-empty (fatal otherwise), make the last
enumerated device current and switch the runtime's global context to it. -/
def DeviceManagerFactory.new (env : Env) :
    Except String (DeviceManagerFactory × List RtCall) :=
  match (enumerate_devices env env.backends).getLast? with
  | none => .error "assertion failed: devices.len() > 0"
  | some current =>
      .ok (⟨enumerate_devices env env.backends, current⟩,
           enumerate_trace env env.backends ++ set_device current)

/-- `DeviceManagerFactory::swap_device`: switch only when the target differs
from the cached current on BOTH backend and id; in that branch assert
catalog membership (fatal otherwise), issue the two global switches and
update the cached current. -/
def swap_device (s : DeviceManagerFactory) (device : Device) :
    Except String (DeviceManagerFactory × List RtCall) :=
  if s.current.backend ≠ device.backend ∧ s.current.id ≠ device.id then
    if device ∈ s.devices then
      .ok (⟨s.devices, device⟩, set_device device)
    else
      .error "assertion failed: self.devices.contains of device"
  else
    .ok (s, [])

/-- `af::Array` as the migration protocol observes it: element count
(`dims().elements()`), element type tag, numeric contents, and the device
context that was active at its creation. -/
structure AfArray where
  dims : Nat
  dtype : Aftype
  data : List ℚ
  ctx : Device
deriving DecidableEq, Repr

/-- `DeviceManagerFactory::swap_array_backend`: swap to the input device,
read dims and download the contents into a freshly allocated host buffer,
swap to the target device, and construct the new array from the buffer —
tagged `Aftype::F32` (the source line `input.get_type()` is commented out
in favour of the hard-coded `Aftype::F32`). -/
def swap_array_backend (s : DeviceManagerFactory) (input : AfArray)
    (input_device target_device : Device) :
    Except String (DeviceManagerFactory × List RtCall × AfArray) :=
  match swap_device s input_device with
  | .error e => .error e
  | .ok (s1, t1) =>
    -- dims query, host-buffer allocation of `dims` zeroed f32 cells, and the
    -- device→host download: the buffer then holds the array's contents
    match swap_device s1 target_device with
    | .error e => .error e
    | .ok (s2, t2) =>
        .ok (s2,
             t1 ++ [RtCall.getDims input.dims, RtCall.hostRead input.dims] ++ t2
                ++ [RtCall.constructArr input.dims Aftype.F32],
             ⟨input.dims, Aftype.F32, input.data, s2.current⟩)

/-! ### The loss layer (src/loss.rs) -/

/-- The typed error of the loss dispatchers (`HALError::UNKNOWN` is the only
variant src/loss.rs produces; error.rs is not under src/). -/
inductive HALError
  | UNKNOWN
deriving DecidableEq, Repr

/-- Elementwise `af::sub(a, b, false)`. -/
def afsub (a b : List ℚ) : List ℚ := List.zipWith (fun x y => x - y) a b

/-- Elementwise `af::mul(a, b, false)`. -/
def afmul (a b : List ℚ) : List ℚ := List.zipWith (fun x y => x * y) a b

/-- Broadcast `af::mul(&a, &c, false)` of an array with a scalar. -/
def afmul_scalar (a : List ℚ) (c : ℚ) : List ℚ := a.map (fun x => x * c)

/-- Broadcast `af::mul(&c, a, false)` of a scalar with an array. -/
def afmul_scalar_left (c : ℚ) (a : List ℚ) : List ℚ := a.map (fun x => c * x)

/-- Broadcast `af::sub(&c, a, false)` of a scalar with an array. -/
def afsub_scalar_left (c : ℚ) (a : List ℚ) : List ℚ := a.map (fun x => c - x)

/-- `af::mean_all`: mean over all elements (first component of the pair). -/
def mean_all (xs : List ℚ) : ℚ := xs.sum / xs.length

/-- `af::sum_all`: sum over all elements (first component of the pair). -/
def sum_all (xs : List ℚ) : ℚ := xs.sum

/-- `l2_vec`: `(y - x) * (y - x)` elementwise. -/
def l2_vec (pred target : List ℚ) : List ℚ :=
  let diff := afsub pred target
  afmul diff diff

/-- `mse_vec`: `0.5 * (y - x) * (y - x)` elementwise. -/
def mse_vec (pred target : List ℚ) : List ℚ :=
  afmul_scalar (l2_vec pred target) (0.5 : ℚ)

/-- `cross_entropy_vec`: `-y ln x - (1-y) ln (1-x)` elementwise; the
elementwise logarithm of the runtime (`af::log`, an f32 routine) is passed
in abstractly as `aflog`. -/
def cross_entropy_vec (aflog : ℚ → ℚ) (pred target : List ℚ) : List ℚ :=
  let pos := afmul (afmul_scalar_left (-1) target) (pred.map aflog)
  let neg := afmul (afsub_scalar_left 1 target) ((afsub_scalar_left 1 pred).map aflog)
  afsub pos neg

/-- `l2`: scalar reduction of the l2 loss. -/
def l2 (pred target : List ℚ) : ℚ := mean_all (l2_vec pred target)

/-- `mse`: scalar reduction of the mean squared error. -/
def mse (pred target : List ℚ) : ℚ := (0.5 : ℚ) * l2 pred target

/-- `cross_entropy`: scalar reduction of the cross-entropy loss. -/
def cross_entropy (aflog : ℚ → ℚ) (pred target : List ℚ) : ℚ :=
  sum_all (cross_entropy_vec aflog pred target)

/-- `mse_derivative`: `pred - target` elementwise. -/
def mse_derivative (pred target : List ℚ) : List ℚ := afsub pred target

/-- `l2_derivative`: `mse_derivative * 2` elementwise. -/
def l2_derivative (pred target : List ℚ) : List ℚ :=
  afmul_scalar (mse_derivative pred target) 2

/-- `cross_entropy_derivative`: identical to `mse_derivative`. -/
def cross_entropy_derivative (pred target : List ℚ) : List ℚ :=
  mse_derivative pred target

/-- `get_loss`: name-dispatched scalar loss; unrecognized names yield the
typed error `HALError::UNKNOWN`. -/
def get_loss (aflog : ℚ → ℚ) (name : String) (pred target : List ℚ) :
    Except HALError ℚ :=
  match name with
  | "l2" => .ok (l2 pred target)
  | "mse" => .ok (mse pred target)
  | "cross_entropy" => .ok (cross_entropy aflog pred target)
  | _ => .error HALError.UNKNOWN

/-- `get_loss_vec`: name-dispatched vector loss. -/
def get_loss_vec (aflog : ℚ → ℚ) (name : String) (pred target : List ℚ) :
    Except HALError (List ℚ) :=
  match name with
  | "l2" => .ok (l2_vec pred target)
  | "mse" => .ok (mse_vec pred target)
  | "cross_entropy" => .ok (cross_entropy_vec aflog pred target)
  | _ => .error HALError.UNKNOWN

/-- `get_loss_derivative`: name-dispatched loss derivative. -/
def get_loss_derivative (name : String) (pred target : List ℚ) :
    Except HALError (List ℚ) :=
  match name with
  | "l2" => .ok (l2_derivative pred target)
  | "mse" => .ok (mse_derivative pred target)
  | "cross_entropy" => .ok (cross_entropy_derivative pred target)
  | _ => .error HALError.UNKNOWN

/-- Modelled from the spec: the activation-function lookup module
(activations.rs is not under src/).  The spec describes it only as a
name-dispatched lookup in the out-of-scope numeric layer whose
dispatchers return a typed error for an unrecognized name; the set of
recognized names and the numeric functions themselves are left abstract. -/
structure ActivationModule where
  recognized : String → Bool
  activation : String → List ℚ → List ℚ
  derivative : String → List ℚ → List ℚ

/-- Modelled from the spec: `activations::get_activation` — applies the
named activation, or returns the typed unrecognized-name error. -/
def get_activation (m : ActivationModule) (name : String) (x : List ℚ) :
    Except HALError (List ℚ) :=
  if m.recognized name then .ok (m.activation name x)
  else .error HALError.UNKNOWN

/-- Modelled from the spec: `activations::get_derivative` — applies the
named activation derivative, or returns the typed unrecognized-name error. -/
def get_derivative (m : ActivationModule) (name : String) (x : List ℚ) :
    Except HALError (List ℚ) :=
  if m.recognized name then .ok (m.derivative name x)
  else .error HALError.UNKNOWN

/-- `Result::unwrap`: an `Err` value is a panic (fatal), modelled as an
untyped error the caller cannot branch on. -/
def unwrapResult {α : Type} : Except HALError α → Except String α
  | .ok a => .ok a
  | .error _ => .error "called Result unwrap on an Err value"

/-- `loss_delta` of src/loss.rs: activates the prediction, takes the loss
derivative and the activation derivative, and multiplies them — unwrapping
every dispatcher result, so an unrecognized name is fatal. -/
def loss_delta (m : ActivationModule) (prediction target : List ℚ)
    (loss activation_type : String) : Except String (List ℚ) :=
  match unwrapResult (get_activation m activation_type prediction) with
  | .error e => .error e
  | .ok activated_prediction =>
    match unwrapResult (get_loss_derivative loss activated_prediction target) with
    | .error e => .error e
    | .ok d_loss =>
      match unwrapResult (get_derivative m activation_type activated_prediction) with
      | .error e => .error e
      | .ok d_z => .ok (afmul d_loss d_z)

/-! ### Concrete fixtures used by witnesses and counterexamples -/

/-- A CPU device with id 0. -/
def dCPU0 : Device := ⟨Backend.CPU, 0⟩

/-- A CUDA device with id 1. -/
def dCUDA1 : Device := ⟨Backend.CUDA, 1⟩

/-- An OpenCL device with id 0. -/
def dOpenCL0 : Device := ⟨Backend.OpenCL, 0⟩

/-- A factory with a two-device catalog, currently on the CPU device. -/
def sAB : DeviceManagerFactory := ⟨[dCPU0, dCUDA1], dCPU0⟩

/-- A factory with a one-device catalog, currently on the CPU device. -/
def sA : DeviceManagerFactory := ⟨[dCPU0], dCPU0⟩

/-- A one-element F64 array created under the CPU device. -/
def arrF64 : AfArray := ⟨1, Aftype.F64, [3], dCPU0⟩

/-- A one-element F32 array created under the CUDA device. -/
def arrB : AfArray := ⟨1, Aftype.F32, [5], dCUDA1⟩

/-- An environment reporting two backends with two devices each. -/
def env2 : Env := ⟨[Backend.CPU, Backend.CUDA], fun _ => 2⟩

/-- An environment reporting no backends at all. -/
def env0 : Env := ⟨[], fun _ => 2⟩

/-! ### Helper lemmas -/

/-- On a catalog member, `swap_device` never panics: it either switches to
the target or is a no-op. -/
theorem swap_device_cases_of_mem (s : DeviceManagerFactory) (d : Device)
    (h : d ∈ s.devices) :
    swap_device s d = .ok (⟨s.devices, d⟩, set_device d) ∨
    swap_device s d = .ok (s, []) := by
  unfold swap_device
  rw [if_pos h]
  split
  · exact Or.inl rfl
  · exact Or.inr rfl

/-- Whenever `swap_device` returns, the catalog is unchanged and the cached
current device is either unchanged or the (catalog-member) target. -/
theorem swap_device_ok_inv (s : DeviceManagerFactory) (d : Device)
    (s1 : DeviceManagerFactory) (t1 : List RtCall)
    (h : swap_device s d = .ok (s1, t1)) :
    s1.devices = s.devices ∧
    (s1.current = s.current ∨ (s1.current = d ∧ d ∈ s.devices)) := by
  unfold swap_device at h
  split at h
  · split at h
    · cases h
      exact ⟨rfl, Or.inr ⟨rfl, by assumption⟩⟩
    · cases h
  · cases h
    exact ⟨rfl, Or.inl rfl⟩

/-- On a catalog member, `swap_device` returns successfully and preserves
the catalog. -/
theorem swap_device_ok_of_mem (s : DeviceManagerFactory) (d : Device)
    (h : d ∈ s.devices) :
    ∃ s1 t1, swap_device s d = .ok (s1, t1) ∧ s1.devices = s.devices := by
  rcases swap_device_cases_of_mem s d h with h1 | h1
  · exact ⟨_, _, h1, rfl⟩
  · exact ⟨_, _, h1, rfl⟩

/-- When the target agrees with the cached current device on backend or on
id, `swap_device` is a silent no-op. -/
theorem swap_device_noop (s : DeviceManagerFactory) (d : Device)
    (hor : s.current.backend = d.backend ∨ s.current.id = d.id) :
    swap_device s d = .ok (s, []) := by
  unfold swap_device
  rw [if_neg]
  intro hand
  rcases hor with h | h
  · exact hand.1 h
  · exact hand.2 h

/-! ### Claims -/

/-- C1: `swap_device(target)` performs the runtime backend-switch and
device-switch and updates the cached active device iff `target` differs
from the cached active device on both backend and id; when `target` equals
the current device or differs on only one field, it issues zero runtime
switch calls and leaves the cached device unchanged; in the switching case
it issues exactly one backend-switch and one device-switch carrying
`target`'s fields, and the cached device becomes `target`. -/
theorem swap_device_contract (s : DeviceManagerFactory) (d : Device) :
    (d ∈ s.devices → s.current.backend ≠ d.backend → s.current.id ≠ d.id →
      swap_device s d =
        .ok (⟨s.devices, d⟩, [RtCall.setBackend d.backend, RtCall.setDevice d.id])) ∧
    ((s.current.backend = d.backend ∨ s.current.id = d.id) →
      swap_device s d = .ok (s, [])) := by
  constructor
  · intro hmem hb hi
    unfold swap_device
    rw [if_pos hmem, if_pos ⟨hb, hi⟩]
    rfl
  · intro hor
    unfold swap_device
    rw [if_neg]
    intro hand
    rcases hor with h | h
    · exact hand.1 h
    · exact hand.2 h

/-- C1 witness: on the two-device factory currently on the CPU device,
swapping to the CUDA device (differing on both fields) issues exactly the
backend-switch and device-switch calls and caches the CUDA device. -/
theorem swap_device_contract_witness :
    swap_device sAB dCUDA1 =
      .ok (⟨sAB.devices, dCUDA1⟩,
           [RtCall.setBackend Backend.CUDA, RtCall.setDevice 1]) :=
  (swap_device_contract sAB dCUDA1).1 (by decide) (by decide) (by decide)

/-- C2 counterexample: `dOpenCL0` is not in `sA`'s catalog, yet it shares
its id with the cached current device, so `swap_device` is a silent no-op
rather than a fatal assertion failure — refuting "fatal for every
non-catalog device regardless of how it relates to the current device". -/
theorem swap_device_unregistered_not_fatal :
    dOpenCL0 ∉ sA.devices ∧ swap_device sA dOpenCL0 = .ok (sA, []) :=
  ⟨by decide, rfl⟩

/-- C2 amended: calling `swap_device` with a device absent from the catalog
is a fatal assertion failure exactly when the device differs from the
cached active device on both backend and id; when it agrees with the
current device on backend or on id, the call is a silent no-op. -/
theorem swap_device_unregistered_fatal_iff (s : DeviceManagerFactory)
    (d : Device) (hmem : d ∉ s.devices) :
    (s.current.backend ≠ d.backend → s.current.id ≠ d.id →
      swap_device s d = .error "assertion failed: self.devices.contains of device") ∧
    ((s.current.backend = d.backend ∨ s.current.id = d.id) →
      swap_device s d = .ok (s, [])) := by
  constructor
  · intro hb hi
    unfold swap_device
    rw [if_neg hmem, if_pos ⟨hb, hi⟩]
  · intro hor
    unfold swap_device
    rw [if_neg]
    intro hand
    rcases hor with h | h
    · exact hand.1 h
    · exact hand.2 h

/-- C2 witness: a device absent from the one-device catalog and differing
from the current device on both fields makes `swap_device` fatal. -/
theorem swap_device_unregistered_fatal_witness :
    swap_device sA ⟨Backend.OpenCL, 7⟩ =
      .error "assertion failed: self.devices.contains of device" :=
  (swap_device_unregistered_fatal_iff sA ⟨Backend.OpenCL, 7⟩ (by decide)).1
    (by decide) (by decide)

/-- C3 counterexample: migrating a one-element F64 array from the CPU to
the CUDA device returns an array tagged `Aftype.F32`, not the source
array's element type — refuting "tagged with the correct element numeric
type of the source array". -/
theorem swap_array_backend_wrong_dtype :
    arrF64.dtype = Aftype.F64 ∧
    swap_array_backend sAB arrF64 dCPU0 dCUDA1 =
      .ok (⟨sAB.devices, dCUDA1⟩,
           [RtCall.getDims 1, RtCall.hostRead 1, RtCall.setBackend Backend.CUDA,
            RtCall.setDevice 1, RtCall.constructArr 1 Aftype.F32],
           ⟨1, Aftype.F32, [3], dCUDA1⟩) ∧
    Aftype.F32 ≠ Aftype.F64 :=
  ⟨rfl, rfl, by decide⟩

/-- C3 amended: for every source array and every pair of catalog devices
(including `source = target`), `swap_array_backend` returns a new array
bound to the context active after the target switch, with the source
array's element count and numerically identical contents — but tagged
`Aftype.F32` unconditionally, which matches the source's element type only
when the source is F32. -/
theorem swap_array_backend_spec (s : DeviceManagerFactory) (input : AfArray)
    (dsrc dtgt : Device) (hs : dsrc ∈ s.devices) (ht : dtgt ∈ s.devices) :
    ∃ s2 tr, swap_array_backend s input dsrc dtgt =
      .ok (s2, tr, ⟨input.dims, Aftype.F32, input.data, s2.current⟩) ∧
      s2.devices = s.devices := by
  obtain ⟨s1, t1, h1, hd1⟩ := swap_device_ok_of_mem s dsrc hs
  obtain ⟨s2, t2, h2, hd2⟩ :=
    swap_device_ok_of_mem s1 dtgt (by rw [hd1]; exact ht)
  refine ⟨s2, t1 ++ [RtCall.getDims input.dims, RtCall.hostRead input.dims]
            ++ t2 ++ [RtCall.constructArr input.dims Aftype.F32],
         ?_, hd2.trans hd1⟩
  simp only [swap_array_backend, h1, h2]

/-- C3 witness: migrating the F32 CUDA-resident array back to the CPU
device on the two-device factory yields an F32 array with its contents and
element count, in the post-switch context. -/
theorem swap_array_backend_spec_witness :
    ∃ s2 tr, swap_array_backend sAB arrB dCUDA1 dCPU0 =
      .ok (s2, tr, ⟨arrB.dims, Aftype.F32, arrB.data, s2.current⟩) ∧
      s2.devices = sAB.devices :=
  swap_array_backend_spec sAB arrB dCUDA1 dCPU0 (by decide) (by decide)

/-- C4 counterexample: a same-device migration whose source device differs
from the cached current device on both fields — the first of the two
`swap_device` calls issues real backend-switch and device-switch calls, so
the two calls are not individually no-ops as claimed. -/
theorem same_device_migration_not_noop :
    swap_device sAB dCUDA1 =
      .ok (⟨sAB.devices, dCUDA1⟩,
           [RtCall.setBackend Backend.CUDA, RtCall.setDevice 1]) ∧
    swap_array_backend sAB arrB dCUDA1 dCUDA1 =
      .ok (⟨sAB.devices, dCUDA1⟩,
           [RtCall.setBackend Backend.CUDA, RtCall.setDevice 1, RtCall.getDims 1,
            RtCall.hostRead 1, RtCall.constructArr 1 Aftype.F32],
           ⟨1, Aftype.F32, [5], dCUDA1⟩) ∧
    ([RtCall.setBackend Backend.CUDA, RtCall.setDevice 1] : List RtCall) ≠ [] :=
  ⟨rfl, rfl, by decide⟩

/-- C4 amended: `swap_array_backend` always executes its four steps in
order — swap to the source device, query the element count and download the
contents into a host buffer of that many elements, swap to the target
device, construct the new array from the buffer — and always stages through
host memory, even when source equals target; in the same-device case the
two `swap_device` calls are individually no-ops whenever the cached current
device agrees with the source device on backend or on id (in particular
when it equals the source device), and the returned contents equal the
original. -/
theorem swap_array_backend_order (s : DeviceManagerFactory) (input : AfArray)
    (dsrc dtgt : Device) (hs : dsrc ∈ s.devices) (ht : dtgt ∈ s.devices) :
    ∃ s1 t1 s2 t2,
      swap_device s dsrc = .ok (s1, t1) ∧
      swap_device s1 dtgt = .ok (s2, t2) ∧
      swap_array_backend s input dsrc dtgt =
        .ok (s2, t1 ++ [RtCall.getDims input.dims, RtCall.hostRead input.dims]
                ++ t2 ++ [RtCall.constructArr input.dims Aftype.F32],
             ⟨input.dims, Aftype.F32, input.data, s2.current⟩) ∧
      (dtgt = dsrc →
        (s.current.backend = dsrc.backend ∨ s.current.id = dsrc.id) →
        t1 = [] ∧ t2 = []) := by
  by_cases hc1 : s.current.backend ≠ dsrc.backend ∧ s.current.id ≠ dsrc.id
  · have h1 : swap_device s dsrc = .ok (⟨s.devices, dsrc⟩, set_device dsrc) := by
      unfold swap_device
      rw [if_pos hs, if_pos hc1]
    obtain ⟨s2, t2, h2, _⟩ :=
      swap_device_ok_of_mem (⟨s.devices, dsrc⟩ : DeviceManagerFactory) dtgt ht
    refine ⟨_, _, s2, t2, h1, h2, ?_, ?_⟩
    · simp only [swap_array_backend, h1, h2]
    · intro _ hor
      rcases hor with h | h
      · exact absurd h hc1.1
      · exact absurd h hc1.2
  · have hor : s.current.backend = dsrc.backend ∨ s.current.id = dsrc.id := by
      rcases not_and_or.mp hc1 with h | h
      · exact Or.inl (not_not.mp h)
      · exact Or.inr (not_not.mp h)
    have h1 : swap_device s dsrc = .ok (s, []) := swap_device_noop s dsrc hor
    by_cases hc2 : s.current.backend ≠ dtgt.backend ∧ s.current.id ≠ dtgt.id
    · have h2 : swap_device s dtgt = .ok (⟨s.devices, dtgt⟩, set_device dtgt) := by
        unfold swap_device
        rw [if_pos ht, if_pos hc2]
      refine ⟨s, [], _, _, h1, h2, ?_, ?_⟩
      · simp only [swap_array_backend, h1, h2]
      · intro heq _
        subst heq
        rcases hor with h | h
        · exact absurd h hc2.1
        · exact absurd h hc2.2
    · have hor2 : s.current.backend = dtgt.backend ∨ s.current.id = dtgt.id := by
        rcases not_and_or.mp hc2 with h | h
        · exact Or.inl (not_not.mp h)
        · exact Or.inr (not_not.mp h)
      have h2 : swap_device s dtgt = .ok (s, []) := swap_device_noop s dtgt hor2
      refine ⟨s, [], s, [], h1, h2, ?_, fun _ _ => ⟨rfl, rfl⟩⟩
      simp only [swap_array_backend, h1, h2]

/-- C4 witness: a same-device migration on the two-device factory whose
source device equals the cached current device — both swaps are no-ops and
the contents come back unchanged. -/
theorem swap_array_backend_order_witness :
    ∃ s1 t1 s2 t2,
      swap_device sAB dCPU0 = .ok (s1, t1) ∧
      swap_device s1 dCPU0 = .ok (s2, t2) ∧
      swap_array_backend sAB arrB dCPU0 dCPU0 =
        .ok (s2, t1 ++ [RtCall.getDims arrB.dims, RtCall.hostRead arrB.dims]
                ++ t2 ++ [RtCall.constructArr arrB.dims Aftype.F32],
             ⟨arrB.dims, Aftype.F32, arrB.data, s2.current⟩) ∧
      (dCPU0 = dCPU0 →
        (sAB.current.backend = dCPU0.backend ∨ sAB.current.id = dCPU0.id) →
        t1 = [] ∧ t2 = []) :=
  swap_array_backend_order sAB arrB dCPU0 dCPU0 (by decide) (by decide)

/-- The enumeration loop produces, backend by backend in the reported
order, one device per index from 0 up to that backend's device count. -/
theorem enumerate_devices_eq_join (env : Env) (bs : List Backend) :
    enumerate_devices env bs =
      (bs.map (fun b =>
        (List.range (env.device_count b)).map
          (fun i => (⟨b, (i : Int)⟩ : Device)))).flatten := by
  induction bs with
  | nil => rfl
  | cons b rest ih =>
      simp only [enumerate_devices, create_devices, List.map_cons, List.flatten_cons, ih]

/-- The enumeration loop issues exactly one backend-activation call per
reported backend, in order. -/
theorem enumerate_trace_eq_map (env : Env) (bs : List Backend) :
    enumerate_trace env bs = bs.map RtCall.setBackend := by
  induction bs with
  | nil => rfl
  | cons b rest ih =>
      simp only [enumerate_trace, create_devices, List.map_cons, ih]
      rfl

/-- C5: `new()` builds the catalog by iterating the runtime's available
backends in the reported order, appending one device per index from 0 up to
each backend's device count; the last device in catalog order becomes the
initial active device and the runtime's global context is switched to it
(after the per-backend activations of the enumeration), so `current` after
`new()` equals the catalog's last element. -/
theorem new_contract (env : Env) (s : DeviceManagerFactory) (tr : List RtCall)
    (h : DeviceManagerFactory.new env = .ok (s, tr)) :
    s.devices =
      (env.backends.map (fun b =>
        (List.range (env.device_count b)).map
          (fun i => (⟨b, (i : Int)⟩ : Device)))).flatten ∧
    s.devices.getLast? = some s.current ∧
    tr = env.backends.map RtCall.setBackend ++
         [RtCall.setBackend s.current.backend, RtCall.setDevice s.current.id] := by
  unfold DeviceManagerFactory.new at h
  split at h
  · cases h
  · cases h
    refine ⟨enumerate_devices_eq_join env env.backends, by assumption, ?_⟩
    rw [enumerate_trace_eq_map]
    rfl

/-- C5 witness: on the two-backend environment with two devices each, the
catalog lists CPU 0, CPU 1, CUDA 0, CUDA 1 in order, the current device is
the last (CUDA 1), and the trace ends by switching the context to it. -/
theorem new_contract_witness :
    ([⟨Backend.CPU, 0⟩, ⟨Backend.CPU, 1⟩, ⟨Backend.CUDA, 0⟩, ⟨Backend.CUDA, 1⟩] :
        List Device) =
      (env2.backends.map (fun b =>
        (List.range (env2.device_count b)).map
          (fun i => (⟨b, (i : Int)⟩ : Device)))).flatten ∧
    ([⟨Backend.CPU, 0⟩, ⟨Backend.CPU, 1⟩, ⟨Backend.CUDA, 0⟩, ⟨Backend.CUDA, 1⟩] :
        List Device).getLast? = some dCUDA1 ∧
    ([RtCall.setBackend Backend.CPU, RtCall.setBackend Backend.CUDA,
      RtCall.setBackend Backend.CUDA, RtCall.setDevice 1] : List RtCall) =
      env2.backends.map RtCall.setBackend ++
        [RtCall.setBackend dCUDA1.backend, RtCall.setDevice dCUDA1.id] :=
  new_contract env2
    ⟨[⟨Backend.CPU, 0⟩, ⟨Backend.CPU, 1⟩, ⟨Backend.CUDA, 0⟩, ⟨Backend.CUDA, 1⟩], dCUDA1⟩
    [RtCall.setBackend Backend.CPU, RtCall.setBackend Backend.CUDA,
     RtCall.setBackend Backend.CUDA, RtCall.setDevice 1] rfl

/-- C6: the cached active device is always a catalog member: it holds right
after `new()` returns, and both `swap_device` and `swap_array_backend`
preserve it while never mutating the catalog. -/
theorem current_mem_catalog :
    (∀ env s tr, DeviceManagerFactory.new env = .ok (s, tr) →
      s.current ∈ s.devices) ∧
    (∀ s d s1 t1, s.current ∈ s.devices → swap_device s d = .ok (s1, t1) →
      s1.devices = s.devices ∧ s1.current ∈ s1.devices) ∧
    (∀ s input dsrc dtgt s2 tr out, s.current ∈ s.devices →
      swap_array_backend s input dsrc dtgt = .ok (s2, tr, out) →
      s2.devices = s.devices ∧ s2.current ∈ s2.devices) := by
  have hswap : ∀ (s : DeviceManagerFactory) (d : Device) s1 t1,
      s.current ∈ s.devices → swap_device s d = .ok (s1, t1) →
      s1.devices = s.devices ∧ s1.current ∈ s1.devices := by
    intro s d s1 t1 hcur h
    obtain ⟨hdev, hc⟩ := swap_device_ok_inv s d s1 t1 h
    refine ⟨hdev, ?_⟩
    rcases hc with hc | ⟨hc, hmem⟩
    · rw [hc, hdev]
      exact hcur
    · rw [hc, hdev]
      exact hmem
  refine ⟨?_, hswap, ?_⟩
  · intro env s tr h
    unfold DeviceManagerFactory.new at h
    split at h
    · cases h
    · cases h
      rename_i current heq
      obtain ⟨hne, hlast⟩ := List.mem_getLast?_eq_getLast (Option.mem_def.mpr heq)
      rw [hlast]
      exact List.getLast_mem hne
  · intro s input dsrc dtgt s2 tr out hcur h
    unfold swap_array_backend at h
    split at h
    · cases h
    · rename_i s1 t1 h1
      split at h
      · cases h
      · rename_i s2a t2 h2
        cases h
        obtain ⟨hd1, hc1⟩ := hswap s dsrc s1 t1 hcur h1
        obtain ⟨hd2, hc2⟩ := hswap s1 dtgt _ t2 hc1 h2
        exact ⟨hd2.trans hd1, hc2⟩

/-- C6 witness: after construction on the two-backend environment, the
cached current device is a member of the catalog. -/
theorem current_mem_catalog_witness :
    dCUDA1 ∈ (⟨[⟨Backend.CPU, 0⟩, ⟨Backend.CPU, 1⟩, ⟨Backend.CUDA, 0⟩, ⟨Backend.CUDA, 1⟩],
               dCUDA1⟩ : DeviceManagerFactory).devices :=
  current_mem_catalog.1 env2
    ⟨[⟨Backend.CPU, 0⟩, ⟨Backend.CPU, 1⟩, ⟨Backend.CUDA, 0⟩, ⟨Backend.CUDA, 1⟩], dCUDA1⟩
    [RtCall.setBackend Backend.CPU, RtCall.setBackend Backend.CUDA,
     RtCall.setBackend Backend.CUDA, RtCall.setDevice 1] rfl

/-- C7: `new()` is fatal exactly when enumeration yields zero devices
across all available backends; with at least one enumerated device it
returns a factory handle. -/
theorem new_fatal_iff (env : Env) :
    (enumerate_devices env env.backends = [] →
      DeviceManagerFactory.new env = .error "assertion failed: devices.len() > 0") ∧
    (enumerate_devices env env.backends ≠ [] →
      ∃ s tr, DeviceManagerFactory.new env = .ok (s, tr)) := by
  constructor
  · intro h
    unfold DeviceManagerFactory.new
    rw [h]
    rfl
  · intro h
    unfold DeviceManagerFactory.new
    rw [List.getLast?_eq_getLast_of_ne_nil h]
    exact ⟨_, _, rfl⟩

/-- C7 witness: the empty-backend environment is fatal at startup, while
the two-backend environment yields a factory. -/
theorem new_fatal_iff_witness :
    DeviceManagerFactory.new env0 = .error "assertion failed: devices.len() > 0" ∧
    ∃ s tr, DeviceManagerFactory.new env2 = .ok (s, tr) :=
  ⟨(new_fatal_iff env0).1 rfl, (new_fatal_iff env2).2 (by decide)⟩

/-- C8: for all pred/target pairs, `mse = 0.5 × l2` as scalars,
`cross_entropy_derivative = mse_derivative`, and
`l2_derivative = 2 × mse_derivative` elementwise. -/
theorem loss_identities (pred target : List ℚ) :
    mse pred target = (0.5 : ℚ) * l2 pred target ∧
    cross_entropy_derivative pred target = mse_derivative pred target ∧
    l2_derivative pred target =
      (mse_derivative pred target).map (fun x => (2 : ℚ) * x) := by
  refine ⟨rfl, rfl, ?_⟩
  unfold l2_derivative afmul_scalar
  exact List.map_congr_left (fun x _ => mul_comm x 2)

/-- C9: `get_loss` returns the typed unrecognized-name error for every name
outside the recognized set, and `Ok` with the corresponding loss for each
name inside it. -/
theorem get_loss_dispatch (aflog : ℚ → ℚ) (name : String)
    (pred target : List ℚ) :
    (name ≠ "l2" → name ≠ "mse" → name ≠ "cross_entropy" →
      get_loss aflog name pred target = .error HALError.UNKNOWN) ∧
    get_loss aflog "l2" pred target = .ok (l2 pred target) ∧
    get_loss aflog "mse" pred target = .ok (mse pred target) ∧
    get_loss aflog "cross_entropy" pred target =
      .ok (cross_entropy aflog pred target) := by
  refine ⟨?_, rfl, rfl, rfl⟩
  intro h1 h2 h3
  unfold get_loss
  split
  · exact absurd rfl h1
  · exact absurd rfl h2
  · exact absurd rfl h3
  · rfl

/-- C9 witness: the unrecognized name "bogus" yields the typed error and
the three recognized names yield their losses on concrete inputs. -/
theorem get_loss_dispatch_witness :
    get_loss id "bogus" [2] [0] = .error HALError.UNKNOWN ∧
    get_loss id "l2" [2] [0] = .ok (l2 [2] [0]) ∧
    get_loss id "mse" [2] [0] = .ok (mse [2] [0]) ∧
    get_loss id "cross_entropy" [2] [0] = .ok (cross_entropy id [2] [0]) :=
  ⟨(get_loss_dispatch id "bogus" [2] [0]).1 (by decide) (by decide) (by decide),
   (get_loss_dispatch id "bogus" [2] [0]).2⟩

/-- For a name outside the recognized set, the loss-derivative dispatcher
returns the typed unrecognized-name error. -/
theorem get_loss_derivative_unknown (name : String) (pred target : List ℚ)
    (h1 : name ≠ "l2") (h2 : name ≠ "mse") (h3 : name ≠ "cross_entropy") :
    get_loss_derivative name pred target = .error HALError.UNKNOWN := by
  unfold get_loss_derivative
  split
  · exact absurd rfl h1
  · exact absurd rfl h2
  · exact absurd rfl h3
  · rfl

/-- C10: unlike the dispatchers, `loss_delta` returns no typed error for an
unrecognized loss or activation name — it unwraps the dispatcher results,
so either kind of unrecognized name is fatal (a panic the caller cannot
branch on: the return carries no `HALError`). -/
theorem loss_delta_fatal (m : ActivationModule) (p t : List ℚ)
    (lossName actName : String) :
    (m.recognized actName = false →
      loss_delta m p t lossName actName =
        .error "called Result unwrap on an Err value") ∧
    (m.recognized actName = true →
      lossName ≠ "l2" → lossName ≠ "mse" → lossName ≠ "cross_entropy" →
      loss_delta m p t lossName actName =
        .error "called Result unwrap on an Err value") := by
  constructor
  · intro h
    unfold loss_delta get_activation
    rw [h]
    rfl
  · intro h h1 h2 h3
    simp only [loss_delta, get_activation, h, if_true,
               get_loss_derivative_unknown lossName (m.activation actName p) t h1 h2 h3,
               unwrapResult]

/-- C10 witness: with a module recognizing only "tanh", an unrecognized
activation name is fatal, and an unrecognized loss name under a recognized
activation is fatal as well. -/
theorem loss_delta_fatal_witness :
    loss_delta ⟨fun n => n == "tanh", fun _ x => x, fun _ x => x⟩ [2] [0]
        "mse" "bogus" = .error "called Result unwrap on an Err value" ∧
    loss_delta ⟨fun n => n == "tanh", fun _ x => x, fun _ x => x⟩ [2] [0]
        "bogus" "tanh" = .error "called Result unwrap on an Err value" :=
  ⟨(loss_delta_fatal ⟨fun n => n == "tanh", fun _ x => x, fun _ x => x⟩
      [2] [0] "mse" "bogus").1 (by decide),
   (loss_delta_fatal ⟨fun n => n == "tanh", fun _ x => x, fun _ x => x⟩
      [2] [0] "bogus" "tanh").2 (by decide) (by decide) (by decide) (by decide)⟩

end HAL
